import Mathlib

/-!
# Per-frame pointer interaction resolution (egui, crates/egui/src/interaction.rs)

A shallow embedding of the interaction resolver: the function `interact` that,
once per frame, turns the previous frame's interaction snapshot, this frame's
widget geometry, hit-test results and pointer event stream into a new
interaction snapshot plus an updated persistent click/drag interaction state.

Widget identities (egui `Id`) are modelled as `Nat` tokens; geometric
rectangles are never computed with by the resolver, only carried around, so a
rectangle is an abstract `Nat` token as well. The id-keyed hash maps
(`IdMap<WidgetRect>`) are modelled as association lists with unique keys and
last-write-wins insertion, matching the `collect()` semantics used in the
source. The `WidgetRects` table (`widgets.by_id`) is modelled as a list of
widget rects looked up by their own id.
-/

/-- Per-widget interest flags (egui `Sense`, restricted to the two flags the
resolver reads): does the widget react to clicks, to drags. -/
structure Sense where
  click : Bool
  drag : Bool
deriving Repr, DecidableEq

/-- A widget's per-frame record: stable id, rectangle (abstract token — the
resolver never inspects it), sense flags, enabled flag. -/
structure WidgetRect where
  id : Nat
  rect : Nat
  sense : Sense
  enabled : Bool
deriving Repr, DecidableEq

/-- An id-keyed map of widget rects (egui `IdMap<WidgetRect>`), as an
association list with unique keys. -/
abbrev IdMap := List (Nat × WidgetRect)

/-- Lookup in the widget geometry table `widgets.by_id` (map invariant: the
entry stored under a key is the widget whose id is that key). -/
def byId (widgets : List WidgetRect) (i : Nat) : Option WidgetRect :=
  widgets.find? (fun w => w.id == i)

/-- Insert into an `IdMap` with last-write-wins semantics on the key. -/
def idMapInsert (m : IdMap) (w : WidgetRect) : IdMap :=
  m.filter (fun p => p.1 != w.id) ++ [(w.id, w)]

/-- Build an `IdMap` from a sequence of widget rects keyed by their ids, the
way `.map(|w| (w.id, *w)).collect()` builds a hash map: unique keys, the last
occurrence of a key wins. -/
def collectIdMap (ws : List WidgetRect) : IdMap :=
  ws.foldl idMapInsert []

/-- Lookup in an `IdMap` by key. -/
def idMapGet (m : IdMap) (i : Nat) : Option WidgetRect :=
  (m.find? (fun p => p.1 == i)).map (fun p => p.2)

/-- Does an optional widget rect hold the id `i`? -/
def optHasId (o : Option WidgetRect) (i : Nat) : Bool :=
  o.any (fun w => w.id == i)

/-- A raw pointer event (egui `input_state::PointerEvent`). Positions, buttons
and the click payload carried by a release are opaque to the resolver (it only
tests `click.is_some()`), so they are abstract tokens. -/
inductive PointerEvent where
  | moved (pos : Nat)
  | pressed (pos : Nat) (button : Nat)
  | released (click : Option Nat) (button : Nat)
deriving Repr, DecidableEq

/-- Is this event a press? -/
def PointerEvent.isPressed : PointerEvent → Bool
  | .pressed _ _ => true
  | _ => false

/-- Is this event a pointer move? -/
def PointerEvent.isMoved : PointerEvent → Bool
  | .moved _ => true
  | _ => false

/-- The slice of the pointer subsystem the resolver reads: the ordered event
stream accumulated since the previous frame, and the decisive-drag heuristic.
Modelled from the spec: the pointer subsystem is an external collaborator
("is the current gesture decisively a drag" is an opaque time/distance
threshold query), so the heuristic's answer is an abstract boolean. -/
structure Pointer where
  pointer_events : List PointerEvent
  decidedly_dragging : Bool
deriving Repr, DecidableEq

/-- The decisive-drag heuristic query (egui
`PointerState::is_decidedly_dragging`), answered by the stored abstract
boolean. -/
def Pointer.is_decidedly_dragging (p : Pointer) : Bool :=
  p.decidedly_dragging

/-- The slice of `InputState` the resolver reads. -/
structure InputState where
  pointer : Pointer
deriving Repr, DecidableEq

/-- This frame's hit-test results (egui `WidgetHits`): at most one
click-candidate, at most one drag-candidate, and the ordered list of widgets
containing the pointer, back-to-front (topmost last). -/
structure WidgetHits where
  click : Option WidgetRect
  drag : Option WidgetRect
  contains_pointer : List WidgetRect
deriving Repr, DecidableEq

/-- The persistent interaction state (egui `memory::InteractionState`).
Modelled from the spec: the type lives in `memory.rs`, not among the sources;
the spec gives it as exactly the two optional widget identities, the widget
currently considered being clicked and the one currently considered being
dragged. -/
structure InteractionState where
  click_id : Option Nat
  drag_id : Option Nat
deriving Repr, DecidableEq

/-- The per-frame interaction snapshot (egui `InteractionSnapshot`). -/
structure InteractionSnapshot where
  clicked : Option WidgetRect
  drag_started : Option WidgetRect
  dragged : Option WidgetRect
  drag_ended : Option WidgetRect
  hovered : IdMap
  contains_pointer : IdMap
deriving Repr, DecidableEq

/-- Step 1, the liveness check: if `interaction.click_id` is set but the
widget is gone from the geometry table, clear it. The matching check on
`drag_id` in the source has an empty body (a vanished drag target is
deliberately tolerated), so `drag_id` is left untouched. -/
def livenessCheck (widgets : List WidgetRect) (st : InteractionState) :
    InteractionState :=
  match st.click_id with
  | some i => if (byId widgets i).isNone then { st with click_id := none } else st
  | none => st

/-- One pointer event of the replay loop, acting on the pair (interaction
state, clicked-so-far): `Moved` does nothing; `Pressed` adopts the
click/drag hit candidates' ids into whichever of `click_id`/`drag_id` is
unset; `Released` records a click when the release carries a click payload and
`click_id` resolves in the geometry table, then unconditionally clears both
`click_id` and `drag_id`. -/
def stepEvent (widgets : List WidgetRect) (hits : WidgetHits)
    (acc : InteractionState × Option WidgetRect) (e : PointerEvent) :
    InteractionState × Option WidgetRect :=
  match e with
  | .moved _ => acc
  | .pressed _ _ =>
    let st1 := if acc.1.click_id.isNone then
      { acc.1 with click_id := hits.click.map (fun w => w.id) } else acc.1
    let st2 := if st1.drag_id.isNone then
      { st1 with drag_id := hits.drag.map (fun w => w.id) } else st1
    (st2, acc.2)
  | .released click _ =>
    let clicked := if click.isSome then
        match acc.1.click_id.bind (byId widgets) with
        | some w => some w
        | none => acc.2
      else acc.2
    ({ acc.1 with click_id := none, drag_id := none }, clicked)

/-- Step 2, event replay: fold the event stream in chronological order. -/
def replayEvents (widgets : List WidgetRect) (hits : WidgetHits)
    (st : InteractionState) (events : List PointerEvent) :
    InteractionState × Option WidgetRect :=
  events.foldl (stepEvent widgets hits) (st, none)

/-- Step 3, drag activation: resolve `drag_id` against the geometry table; if
the widget senses both click and drag, defer to the decisive-drag heuristic,
otherwise its drag sense alone decides. -/
def resolveDrag (widgets : List WidgetRect) (input : InputState)
    (st : InteractionState) : Option WidgetRect :=
  match st.drag_id.bind (byId widgets) with
  | some w =>
    let is_dragged := if w.sense.click && w.sense.drag then
        input.pointer.is_decidedly_dragging
      else w.sense.drag
    if is_dragged then some w else none
  | none => none

/-- Modelled from the spec: the equality test on optional drag results used by
the drag-edge comparison (source line `dragged != prev_snapshot.dragged`).
The `WidgetRect` equality instance it invokes is declared outside the sources
under study; the spec states the comparison is "by identity equality (same id
== same widget, even if its rectangle moved)". -/
def dragResultEq : Option WidgetRect → Option WidgetRect → Bool
  | none, none => true
  | some a, some b => a.id == b.id
  | _, _ => false

/-- Step 4: did the drag result change relative to the previous frame? -/
def dragChanged (prev : InteractionSnapshot) (dragged : Option WidgetRect) :
    Bool :=
  !(dragResultEq dragged prev.dragged)

/-- Step 4: `drag_changed.then_some(prev_snapshot.dragged).flatten()`. -/
def dragEnded (prev : InteractionSnapshot) (dragged : Option WidgetRect) :
    Option WidgetRect :=
  if dragChanged prev dragged then prev.dragged else none

/-- Step 4: `drag_changed.then_some(dragged).flatten()`. -/
def dragStarted (prev : InteractionSnapshot) (dragged : Option WidgetRect) :
    Option WidgetRect :=
  if dragChanged prev dragged then dragged else none

/-- Step 5, the contains-pointer set: `hits.contains_pointer` chained with the
click and drag candidates, collected into an id-keyed map. -/
def collectContains (hits : WidgetHits) : IdMap :=
  collectIdMap (hits.contains_pointer ++ hits.click.toList ++ hits.drag.toList)

/-- Step 6, hover resolution in strict priority order: the clicked/dragged
widgets if any; else the click/drag hit candidates if any; else the topmost
(last) entry of `hits.contains_pointer`, if any. -/
def computeHovered (hits : WidgetHits)
    (clicked dragged : Option WidgetRect) : IdMap :=
  if clicked.isSome || dragged.isSome then
    collectIdMap (clicked.toList ++ dragged.toList)
  else if hits.click.isSome || hits.drag.isSome then
    collectIdMap (hits.click.toList ++ hits.drag.toList)
  else
    collectIdMap hits.contains_pointer.getLast?.toList

/-- The interaction resolver (egui `interaction::interact`). The Rust function
mutates `interaction : &mut InteractionState` in place and returns the new
snapshot; here the updated state is returned as the second component. -/
def interact (prev_snapshot : InteractionSnapshot) (widgets : List WidgetRect)
    (hits : WidgetHits) (input : InputState)
    (interaction : InteractionState) :
    InteractionSnapshot × InteractionState :=
  let st1 := livenessCheck widgets interaction
  let rc := replayEvents widgets hits st1 input.pointer.pointer_events
  let clicked := rc.2
  let dragged := resolveDrag widgets input rc.1
  ({ clicked := clicked
     drag_started := dragStarted prev_snapshot dragged
     dragged := dragged
     drag_ended := dragEnded prev_snapshot dragged
     hovered := computeHovered hits clicked dragged
     contains_pointer := collectContains hits }, rc.1)

/-! ## Concrete fixtures used by the witnesses -/

/-- A widget sensing both clicks and drags. -/
def wA : WidgetRect :=
  { id := 1, rect := 10, sense := { click := true, drag := true }, enabled := true }

/-- A widget sensing drags only. -/
def wB : WidgetRect :=
  { id := 2, rect := 20, sense := { click := false, drag := true }, enabled := true }

/-- A widget sensing clicks only. -/
def wC : WidgetRect :=
  { id := 3, rect := 30, sense := { click := true, drag := false }, enabled := true }

/-- The drag-only widget `wB` with its rectangle moved. -/
def wBmoved : WidgetRect :=
  { id := 2, rect := 21, sense := { click := false, drag := true }, enabled := true }

/-- The empty snapshot. -/
def emptySnapshot : InteractionSnapshot :=
  { clicked := none, drag_started := none, dragged := none, drag_ended := none,
    hovered := [], contains_pointer := [] }

/-- The empty interaction state. -/
def emptyState : InteractionState :=
  { click_id := none, drag_id := none }

/-- Hit-test result with no candidates at all. -/
def noHits : WidgetHits :=
  { click := none, drag := none, contains_pointer := [] }

/-- Input with a given event stream and decisive-drag answer. -/
def inputWith (events : List PointerEvent) (dec : Bool) : InputState :=
  { pointer := { pointer_events := events, decidedly_dragging := dec } }

/-- Hit-test result with the drag-only widget `wB` as drag candidate. -/
def hitsB : WidgetHits :=
  { click := none, drag := some wB, contains_pointer := [wB] }

/-- Hit-test result with the click-and-drag widget `wA` as both candidates. -/
def hitsA : WidgetHits :=
  { click := some wA, drag := some wA, contains_pointer := [wA] }

/-- Hit-test result where `wB` and `wC` both contain the pointer (topmost
last) but neither is a click or drag candidate. -/
def hitsContainsBC : WidgetHits :=
  { click := none, drag := none, contains_pointer := [wB, wC] }

/-- Previous snapshot in which `wB` (at its old rectangle) was dragged. -/
def prevDragB : InteractionSnapshot :=
  { emptySnapshot with dragged := some wBmoved }

/-- Interaction state mid-drag on widget id 2. -/
def stateDragB : InteractionState :=
  { click_id := none, drag_id := some 2 }

/-- Interaction state tracking a click on widget id 5. -/
def stateClick5 : InteractionState :=
  { click_id := some 5, drag_id := none }

/-! ## Helper lemmas -/

theorem byId_id_eq (widgets : List WidgetRect) (i : Nat) (w : WidgetRect)
    (h : byId widgets i = some w) : w.id = i := by
  have hp := List.find?_some h
  simpa using hp

theorem byId_mem (widgets : List WidgetRect) (i : Nat) (w : WidgetRect)
    (h : byId widgets i = some w) : w ∈ widgets :=
  List.mem_of_find?_eq_some h

theorem byId_isSome_of_mem (widgets : List WidgetRect) (w : WidgetRect)
    (hw : w ∈ widgets) : (byId widgets w.id).isSome = true := by
  unfold byId
  rw [List.find?_isSome]
  exact ⟨w, hw, by simp⟩

theorem livenessCheck_drag_id (widgets : List WidgetRect)
    (st : InteractionState) :
    (livenessCheck widgets st).drag_id = st.drag_id := by
  unfold livenessCheck
  cases h : st.click_id with
  | none => rfl
  | some i =>
    by_cases hb : (byId widgets i).isNone = true <;> simp [hb]

theorem livenessCheck_click_cleared (widgets : List WidgetRect)
    (st : InteractionState) (i : Nat)
    (h1 : st.click_id = some i) (h2 : byId widgets i = none) :
    (livenessCheck widgets st).click_id = none := by
  unfold livenessCheck
  rw [h1]
  simp [h2]

theorem stepEvent_released_clicked (widgets : List WidgetRect)
    (hits : WidgetHits) (acc : InteractionState × Option WidgetRect)
    (c : Option Nat) (b : Nat) :
    (stepEvent widgets hits acc (.released c b)).2 =
      if c.isSome then
        match acc.1.click_id.bind (byId widgets) with
        | some w => some w
        | none => acc.2
      else acc.2 := rfl

theorem foldl_drag_id_none (widgets : List WidgetRect) (hits : WidgetHits)
    (l : List PointerEvent) (hl : ∀ e ∈ l, e.isPressed = false)
    (acc : InteractionState × Option WidgetRect) (h0 : acc.1.drag_id = none) :
    ((l.foldl (stepEvent widgets hits) acc).1).drag_id = none := by
  induction l generalizing acc with
  | nil => simpa using h0
  | cons e t ih =>
    rw [List.foldl_cons]
    refine ih (fun e' he' => hl e' (List.mem_cons_of_mem _ he')) _ ?_
    cases e with
    | moved p => exact h0
    | pressed p b =>
      exact absurd (hl _ (List.mem_cons_self _ _))
        (by simp [PointerEvent.isPressed])
    | released c b => rfl

theorem foldl_all_moved (widgets : List WidgetRect) (hits : WidgetHits)
    (l : List PointerEvent) (hl : ∀ e ∈ l, e.isMoved = true)
    (acc : InteractionState × Option WidgetRect) :
    l.foldl (stepEvent widgets hits) acc = acc := by
  induction l generalizing acc with
  | nil => rfl
  | cons e t ih =>
    rw [List.foldl_cons]
    cases e with
    | moved p => exact ih (fun e' he' => hl e' (List.mem_cons_of_mem _ he')) acc
    | pressed p b =>
      exact absurd (hl _ (List.mem_cons_self _ _))
        (by simp [PointerEvent.isMoved])
    | released c b =>
      exact absurd (hl _ (List.mem_cons_self _ _))
        (by simp [PointerEvent.isMoved])

theorem foldl_clicked_mem (widgets : List WidgetRect) (hits : WidgetHits)
    (l : List PointerEvent) (acc : InteractionState × Option WidgetRect)
    (hacc : ∀ w, acc.2 = some w → w ∈ widgets) :
    ∀ w, ((l.foldl (stepEvent widgets hits) acc).2) = some w → w ∈ widgets := by
  induction l generalizing acc with
  | nil => simpa using hacc
  | cons e t ih =>
    rw [List.foldl_cons]
    refine ih _ ?_
    intro w hw
    cases e with
    | moved p => exact hacc w hw
    | pressed p b => exact hacc w hw
    | released c b =>
      rw [stepEvent_released_clicked] at hw
      split at hw
      · split at hw
        · rename_i w₀ heq
          obtain ⟨j, hj, hji⟩ := Option.bind_eq_some.mp heq
          cases hw
          exact byId_mem widgets j w hji
        · exact hacc w hw
      · exact hacc w hw

theorem dragStarted_none (prev : InteractionSnapshot) :
    dragStarted prev none = none := by
  unfold dragStarted
  split <;> rfl

theorem dragStarted_of_none (prev : InteractionSnapshot)
    (d : Option WidgetRect) (h : d = none) : dragStarted prev d = none := by
  subst h
  exact dragStarted_none prev

theorem dragStarted_eq_some (prev : InteractionSnapshot)
    (d : Option WidgetRect) (x : WidgetRect)
    (h : dragStarted prev d = some x) : d = some x := by
  unfold dragStarted at h
  split at h
  · exact h
  · exact absurd h (by simp)

theorem dragEnded_eq_some (prev : InteractionSnapshot)
    (d : Option WidgetRect) (x : WidgetRect)
    (h : dragEnded prev d = some x) :
    prev.dragged = some x ∧ dragChanged prev d = true := by
  unfold dragEnded at h
  split at h
  next hc => exact ⟨h, hc⟩
  next => exact absurd h (by simp)

theorem ne_id_of_dragChanged (prev : InteractionSnapshot)
    (d : Option WidgetRect) (w x : WidgetRect)
    (hc : dragChanged prev d = true) (hp : prev.dragged = some x)
    (hd : d = some w) : w.id ≠ x.id := by
  subst hd
  unfold dragChanged dragResultEq at hc
  rw [hp] at hc
  simpa using hc

theorem dragChanged_false_of_same_id (prev : InteractionSnapshot)
    (d : Option WidgetRect) (w x : WidgetRect)
    (hd : d = some w) (hp : prev.dragged = some x) (hid : w.id = x.id) :
    dragChanged prev d = false := by
  subst hd
  unfold dragChanged dragResultEq
  rw [hp]
  simp [hid]

theorem drag_edges_none_of_same_id (prev : InteractionSnapshot)
    (d : Option WidgetRect) (w x : WidgetRect) (hd : d = some w)
    (hp : prev.dragged = some x) (hid : w.id = x.id) :
    dragStarted prev d = none ∧ dragEnded prev d = none := by
  have hc : dragChanged prev d = false :=
    dragChanged_false_of_same_id prev d w x hd hp hid
  unfold dragStarted dragEnded
  simp [hc]

theorem isSome_idMapGet_insert (m : IdMap) (w : WidgetRect) (i : Nat) :
    (idMapGet (idMapInsert m w) i).isSome =
      ((idMapGet m i).isSome || (w.id == i)) := by
  unfold idMapGet idMapInsert
  rw [Bool.eq_iff_iff]
  simp only [Option.isSome_map', List.find?_append, Option.isSome_or,
    List.find?_isSome, Bool.or_eq_true, beq_iff_eq, List.mem_append,
    List.mem_filter, bne_iff_ne, List.mem_singleton]
  constructor
  · rintro (⟨x, hx, hxi⟩ | ⟨x, hx, hxi⟩)
    · exact Or.inl ⟨x, hx.1, hxi⟩
    · subst hx
      exact Or.inr hxi
  · rintro (⟨x, hx, hxi⟩ | hwi)
    · by_cases hxw : x.1 = w.id
      · refine Or.inr ⟨(w.id, w), rfl, ?_⟩
        rw [← hxi, hxw]
      · exact Or.inl ⟨x, ⟨hx, hxw⟩, hxi⟩
    · exact Or.inr ⟨(w.id, w), rfl, hwi⟩

theorem isSome_idMapGet_foldl (ws : List WidgetRect) (m : IdMap) (i : Nat) :
    (idMapGet (ws.foldl idMapInsert m) i).isSome =
      ((idMapGet m i).isSome || ws.any (fun w => w.id == i)) := by
  induction ws generalizing m with
  | nil => simp
  | cons w t ih =>
    rw [List.foldl_cons, ih, isSome_idMapGet_insert, List.any_cons,
      Bool.or_assoc]

theorem isSome_idMapGet_collect (ws : List WidgetRect) (i : Nat) :
    (idMapGet (collectIdMap ws) i).isSome = ws.any (fun w => w.id == i) := by
  unfold collectIdMap
  rw [isSome_idMapGet_foldl]
  simp [idMapGet]

theorem idMapInsert_length (m : IdMap) (w : WidgetRect) :
    (idMapInsert m w).length ≤ m.length + 1 := by
  unfold idMapInsert
  rw [List.length_append]
  have h := List.length_filter_le (fun p => p.1 != w.id) m
  simp only [List.length_cons, List.length_nil]
  omega

theorem foldl_idMapInsert_length (ws : List WidgetRect) (m : IdMap) :
    (ws.foldl idMapInsert m).length ≤ m.length + ws.length := by
  induction ws generalizing m with
  | nil => simp
  | cons w t ih =>
    rw [List.foldl_cons]
    have h1 := ih (idMapInsert m w)
    have h2 := idMapInsert_length m w
    simp only [List.length_cons]
    omega

theorem collectIdMap_length (ws : List WidgetRect) :
    (collectIdMap ws).length ≤ ws.length := by
  have h := foldl_idMapInsert_length ws []
  simpa using h

theorem toList_length_le (o : Option WidgetRect) : o.toList.length ≤ 1 := by
  cases o <;> simp

theorem computeHovered_active (hits : WidgetHits) (c d : Option WidgetRect)
    (i : Nat) (h : c.isSome = true ∨ d.isSome = true) :
    (idMapGet (computeHovered hits c d) i).isSome =
      (optHasId c i || optHasId d i) := by
  have hb : (c.isSome || d.isSome) = true := by
    rcases h with h | h <;> simp [h]
  unfold computeHovered
  rw [if_pos hb, isSome_idMapGet_collect]
  cases c <;> cases d <;> simp [optHasId]

theorem computeHovered_passive (hits : WidgetHits) (c d : Option WidgetRect)
    (h1 : c = none) (h2 : d = none) (h3 : hits.click = none)
    (h4 : hits.drag = none) :
    computeHovered hits c d =
      hits.contains_pointer.getLast?.elim [] (fun w => [(w.id, w)]) := by
  subst h1
  subst h2
  unfold computeHovered
  rw [h3, h4]
  simp only [Option.isSome_none, Bool.or_self, Bool.false_eq_true, if_false]
  cases hits.contains_pointer.getLast? <;> rfl

theorem computeHovered_length_le (hits : WidgetHits)
    (c d : Option WidgetRect) :
    (computeHovered hits c d).length ≤ 2 := by
  unfold computeHovered
  split
  · have h := collectIdMap_length (c.toList ++ d.toList)
    have h1 := toList_length_le c
    have h2 := toList_length_le d
    rw [List.length_append] at h
    omega
  · split
    · have h := collectIdMap_length (hits.click.toList ++ hits.drag.toList)
      have h1 := toList_length_le hits.click
      have h2 := toList_length_le hits.drag
      rw [List.length_append] at h
      omega
    · have h := collectIdMap_length hits.contains_pointer.getLast?.toList
      have h1 := toList_length_le hits.contains_pointer.getLast?
      omega

/-! ## The claims -/

/-- Claim C1: drag edge detection compares by widget identity only — for every
call to `interact`, if the dragged widget resolved this frame and
`prev_snapshot.dragged` carry the same widget id (even when their rectangles
differ), the returned snapshot has no `drag_started` and no `drag_ended`
edge. -/
theorem interact_drag_edge_same_id
    (prev : InteractionSnapshot) (widgets : List WidgetRect)
    (hits : WidgetHits) (input : InputState) (st : InteractionState)
    (w x : WidgetRect)
    (hd : (interact prev widgets hits input st).1.dragged = some w)
    (hp : prev.dragged = some x) (hid : w.id = x.id) :
    (interact prev widgets hits input st).1.drag_started = none ∧
    (interact prev widgets hits input st).1.drag_ended = none :=
  drag_edges_none_of_same_id prev
    ((interact prev widgets hits input st).1.dragged) w x hd hp hid

/-- Witness for C1: widget id 2 is dragged both in the previous frame (at
rectangle 21) and in this frame (at rectangle 20); no edge is reported. -/
theorem interact_drag_edge_same_id_witness :
    (interact prevDragB [wB] hitsB (inputWith [] false) stateDragB).1.drag_started = none ∧
    (interact prevDragB [wB] hitsB (inputWith [] false) stateDragB).1.drag_ended = none :=
  interact_drag_edge_same_id prevDragB [wB] hitsB (inputWith [] false)
    stateDragB wB wBmoved (by decide) (by decide) (by decide)

/-- Claim C2: drag edge pairing — in every snapshot returned by `interact`, a
`drag_started` widget is also the `dragged` widget of the same snapshot, and a
`drag_ended` widget was `prev_snapshot.dragged` and does not share its id with
the snapshot's `dragged` widget. -/
theorem interact_drag_edge_pairing
    (prev : InteractionSnapshot) (widgets : List WidgetRect)
    (hits : WidgetHits) (input : InputState) (st : InteractionState)
    (x : WidgetRect) :
    ((interact prev widgets hits input st).1.drag_started = some x →
      (interact prev widgets hits input st).1.dragged = some x) ∧
    ((interact prev widgets hits input st).1.drag_ended = some x →
      prev.dragged = some x ∧
      ∀ w, (interact prev widgets hits input st).1.dragged = some w →
        w.id ≠ x.id) := by
  constructor
  · intro h
    exact dragStarted_eq_some prev
      ((interact prev widgets hits input st).1.dragged) x h
  · intro h
    have hd := dragEnded_eq_some prev
      ((interact prev widgets hits input st).1.dragged) x h
    refine ⟨hd.1, ?_⟩
    intro w hw
    exact ne_id_of_dragChanged prev
      ((interact prev widgets hits input st).1.dragged) w x hd.2 hd.1 hw

/-- Witness for C2: in the frame a drag of the drag-only widget `wB` starts,
`dragged` is populated together with `drag_started`; in the frame a release
ends the drag of widget id 2, the previously dragged widget is reported in
`drag_ended`. -/
theorem interact_drag_edge_pairing_witness :
    (interact emptySnapshot [wB] hitsB
      (inputWith [PointerEvent.pressed 0 0] false) emptyState).1.dragged = some wB ∧
    prevDragB.dragged = some wBmoved :=
  ⟨(interact_drag_edge_pairing emptySnapshot [wB] hitsB
      (inputWith [PointerEvent.pressed 0 0] false) emptyState wB).1 (by decide),
   ((interact_drag_edge_pairing prevDragB [wB] noHits
      (inputWith [PointerEvent.released none 0] false) stateDragB wBmoved).2
      (by decide)).1⟩

/-- Claim C3: no same-frame click-to-drag — for every call to `interact` whose
pointer event stream contains a press followed (chronologically) by a release
with no later press, the returned snapshot has `dragged = none` and
`drag_started = none`, regardless of any widget's sense flags. -/
theorem interact_no_same_frame_click_drag
    (prev : InteractionSnapshot) (widgets : List WidgetRect)
    (hits : WidgetHits) (input : InputState) (st : InteractionState)
    (l₁ l₂ l₃ : List PointerEvent) (p b : Nat) (c : Option Nat) (b' : Nat)
    (hin : input.pointer.pointer_events =
      l₁ ++ PointerEvent.pressed p b :: (l₂ ++ PointerEvent.released c b' :: l₃))
    (hl₃ : ∀ e ∈ l₃, e.isPressed = false) :
    (interact prev widgets hits input st).1.dragged = none ∧
    (interact prev widgets hits input st).1.drag_started = none := by
  have hstate : ((replayEvents widgets hits (livenessCheck widgets st)
      input.pointer.pointer_events).1).drag_id = none := by
    unfold replayEvents
    rw [hin, List.foldl_append, List.foldl_cons, List.foldl_append,
      List.foldl_cons]
    exact foldl_drag_id_none widgets hits l₃ hl₃ _ rfl
  have hdrag : resolveDrag widgets input (replayEvents widgets hits
      (livenessCheck widgets st) input.pointer.pointer_events).1 = none := by
    unfold resolveDrag
    rw [hstate]
    rfl
  exact ⟨hdrag, dragStarted_of_none prev
    ((interact prev widgets hits input st).1.dragged) hdrag⟩

/-- Witness for C3: a press on the drag-only widget `wB` followed by a
click-carrying release in the same frame yields neither `dragged` nor
`drag_started`. -/
theorem interact_no_same_frame_click_drag_witness :
    (interact emptySnapshot [wB] hitsB
      (inputWith [PointerEvent.pressed 0 0, PointerEvent.released (some 1) 0]
        false) emptyState).1.dragged = none ∧
    (interact emptySnapshot [wB] hitsB
      (inputWith [PointerEvent.pressed 0 0, PointerEvent.released (some 1) 0]
        false) emptyState).1.drag_started = none :=
  interact_no_same_frame_click_drag emptySnapshot [wB] hitsB
    (inputWith [PointerEvent.pressed 0 0, PointerEvent.released (some 1) 0]
      false) emptyState [] [] [] 0 0 (some 1) 0 rfl (by simp)

/-- Claim C4: hover suppression during active gestures — for every call to
`interact`, if the returned snapshot's `clicked` or `dragged` is non-empty,
then an id is a key of the returned `hovered` map exactly when it is the id of
the `clicked` or the `dragged` widget. -/
theorem interact_hover_suppression
    (prev : InteractionSnapshot) (widgets : List WidgetRect)
    (hits : WidgetHits) (input : InputState) (st : InteractionState) (i : Nat)
    (h : (interact prev widgets hits input st).1.clicked.isSome = true ∨
         (interact prev widgets hits input st).1.dragged.isSome = true) :
    (idMapGet (interact prev widgets hits input st).1.hovered i).isSome =
      (optHasId (interact prev widgets hits input st).1.clicked i ||
       optHasId (interact prev widgets hits input st).1.dragged i) :=
  computeHovered_active hits
    ((interact prev widgets hits input st).1.clicked)
    ((interact prev widgets hits input st).1.dragged) i h

/-- Witness for C4: while the drag-only widget `wB` (id 2) is dragged, id 2 is
hovered and its hover membership agrees with the clicked/dragged union. -/
theorem interact_hover_suppression_witness :
    (idMapGet (interact emptySnapshot [wB] hitsB
      (inputWith [PointerEvent.pressed 0 0] false) emptyState).1.hovered 2).isSome =
      (optHasId (interact emptySnapshot [wB] hitsB
        (inputWith [PointerEvent.pressed 0 0] false) emptyState).1.clicked 2 ||
       optHasId (interact emptySnapshot [wB] hitsB
        (inputWith [PointerEvent.pressed 0 0] false) emptyState).1.dragged 2) :=
  interact_hover_suppression emptySnapshot [wB] hitsB
    (inputWith [PointerEvent.pressed 0 0] false) emptyState 2
    (Or.inr (by decide))

/-- Claim C5: passive hover singularity — for every call to `interact` where
the returned `clicked` and `dragged` are both none and `hits.click` and
`hits.drag` are both none, the returned `hovered` map is exactly the last
(topmost) element of `hits.contains_pointer` keyed by its id, or empty when
that sequence is empty. -/
theorem interact_passive_hover_topmost
    (prev : InteractionSnapshot) (widgets : List WidgetRect)
    (hits : WidgetHits) (input : InputState) (st : InteractionState)
    (h1 : (interact prev widgets hits input st).1.clicked = none)
    (h2 : (interact prev widgets hits input st).1.dragged = none)
    (h3 : hits.click = none) (h4 : hits.drag = none) :
    (interact prev widgets hits input st).1.hovered =
      hits.contains_pointer.getLast?.elim [] (fun w => [(w.id, w)]) :=
  computeHovered_passive hits
    ((interact prev widgets hits input st).1.clicked)
    ((interact prev widgets hits input st).1.dragged) h1 h2 h3 h4

/-- Witness for C5: `wB` and `wC` both contain the pointer and there are no
click/drag candidates; only the topmost widget `wC` is hovered. -/
theorem interact_passive_hover_topmost_witness :
    (interact emptySnapshot [wB, wC] hitsContainsBC (inputWith [] false)
      emptyState).1.hovered =
      hitsContainsBC.contains_pointer.getLast?.elim []
        (fun w => [(w.id, w)]) :=
  interact_passive_hover_topmost emptySnapshot [wB, wC] hitsContainsBC
    (inputWith [] false) emptyState (by decide) (by decide) rfl rfl

/-- Claim C6: click target disappearance — for every call to `interact` where
`state.click_id = some i` on entry and id `i` is absent from the geometry
table, the liveness check clears `click_id` before event replay, and the
returned snapshot's `clicked` can never be a widget with id `i`. -/
theorem interact_click_target_gone
    (prev : InteractionSnapshot) (widgets : List WidgetRect)
    (hits : WidgetHits) (input : InputState) (st : InteractionState) (i : Nat)
    (h1 : st.click_id = some i) (h2 : byId widgets i = none) :
    (livenessCheck widgets st).click_id = none ∧
    ∀ w, (interact prev widgets hits input st).1.clicked = some w →
      w.id ≠ i := by
  refine ⟨livenessCheck_click_cleared widgets st i h1 h2, ?_⟩
  intro w hw
  have hmem : w ∈ widgets := by
    refine foldl_clicked_mem widgets hits input.pointer.pointer_events
      (livenessCheck widgets st, none) ?_ w hw
    intro w' hw'
    exact Option.noConfusion hw'
  intro hwi
  have hs : (byId widgets w.id).isSome = true :=
    byId_isSome_of_mem widgets w hmem
  rw [hwi, h2] at hs
  exact Bool.noConfusion hs

/-- Witness for C6: a tracked click on vanished widget id 5 is cleared by the
liveness check. -/
theorem interact_click_target_gone_witness :
    (livenessCheck [wB] stateClick5).click_id = none :=
  (interact_click_target_gone emptySnapshot [wB] noHits (inputWith [] false)
    stateClick5 5 rfl (by decide)).1

/-- Claim C7: drag target disappearance is tolerated — for every call to
`interact` where `state.drag_id = some i` on entry, id `i` is absent from the
geometry table, and the event stream contains no press or release (only
moves), the returned snapshot has `dragged = none` while the exit state still
has `drag_id = some i`. -/
theorem interact_drag_target_gone
    (prev : InteractionSnapshot) (widgets : List WidgetRect)
    (hits : WidgetHits) (input : InputState) (st : InteractionState) (i : Nat)
    (h1 : st.drag_id = some i) (h2 : byId widgets i = none)
    (h3 : ∀ e ∈ input.pointer.pointer_events, e.isMoved = true) :
    (interact prev widgets hits input st).1.dragged = none ∧
    (interact prev widgets hits input st).2.drag_id = some i := by
  have hre : replayEvents widgets hits (livenessCheck widgets st)
      input.pointer.pointer_events = (livenessCheck widgets st, none) := by
    unfold replayEvents
    exact foldl_all_moved widgets hits _ h3 _
  constructor
  · show resolveDrag widgets input (replayEvents widgets hits
      (livenessCheck widgets st) input.pointer.pointer_events).1 = none
    rw [hre]
    unfold resolveDrag
    rw [livenessCheck_drag_id, h1, Option.some_bind, h2]
  · show (replayEvents widgets hits (livenessCheck widgets st)
      input.pointer.pointer_events).1.drag_id = some i
    rw [hre, livenessCheck_drag_id]
    exact h1

/-- Witness for C7: mid-drag of widget id 2, the widget is absent from the
geometry table and only a move arrives; nothing is dragged but the drag
tracking survives. -/
theorem interact_drag_target_gone_witness :
    (interact emptySnapshot [wC] noHits (inputWith [PointerEvent.moved 0] false)
      stateDragB).1.dragged = none ∧
    (interact emptySnapshot [wC] noHits (inputWith [PointerEvent.moved 0] false)
      stateDragB).2.drag_id = some 2 :=
  interact_drag_target_gone emptySnapshot [wC] noHits
    (inputWith [PointerEvent.moved 0] false) stateDragB 2 rfl (by decide)
    (by decide)

/-- Claim C8: release always ends the gesture — for every call to `interact`
whose event stream ends with a release followed only by moves (its last
non-move event is a release), both `click_id` and `drag_id` are none on
exit. -/
theorem interact_release_clears_state
    (prev : InteractionSnapshot) (widgets : List WidgetRect)
    (hits : WidgetHits) (input : InputState) (st : InteractionState)
    (l₁ l₂ : List PointerEvent) (c : Option Nat) (b : Nat)
    (hin : input.pointer.pointer_events =
      l₁ ++ PointerEvent.released c b :: l₂)
    (hl₂ : ∀ e ∈ l₂, e.isMoved = true) :
    (interact prev widgets hits input st).2.click_id = none ∧
    (interact prev widgets hits input st).2.drag_id = none := by
  have h : (replayEvents widgets hits (livenessCheck widgets st)
      input.pointer.pointer_events).1 =
      { click_id := none, drag_id := none } := by
    unfold replayEvents
    rw [hin, List.foldl_append, List.foldl_cons,
      foldl_all_moved widgets hits l₂ hl₂]
    rfl
  constructor
  · show (replayEvents widgets hits (livenessCheck widgets st)
      input.pointer.pointer_events).1.click_id = none
    rw [h]
  · show (replayEvents widgets hits (livenessCheck widgets st)
      input.pointer.pointer_events).1.drag_id = none
    rw [h]

/-- Witness for C8: a press-then-release frame on widget `wA` exits with both
trackers cleared, even though a click was recognized. -/
theorem interact_release_clears_state_witness :
    (interact emptySnapshot [wA] hitsA
      (inputWith [PointerEvent.pressed 0 0, PointerEvent.released (some 1) 0]
        false) emptyState).2.click_id = none ∧
    (interact emptySnapshot [wA] hitsA
      (inputWith [PointerEvent.pressed 0 0, PointerEvent.released (some 1) 0]
        false) emptyState).2.drag_id = none :=
  interact_release_clears_state emptySnapshot [wA] hitsA
    (inputWith [PointerEvent.pressed 0 0, PointerEvent.released (some 1) 0]
      false) emptyState [PointerEvent.pressed 0 0] [] (some 1) 0 rfl (by simp)

/-- Claim C9: drag activation rule — for every call to `interact` where the
post-replay `drag_id` resolves to widget `w` in the geometry table, `w` is
reported as dragged immediately when its sense is drag-only, and exactly when
the pointer subsystem's decisive-drag heuristic answers true when its sense is
both click and drag. -/
theorem interact_drag_activation
    (prev : InteractionSnapshot) (widgets : List WidgetRect)
    (hits : WidgetHits) (input : InputState) (st : InteractionState)
    (w : WidgetRect)
    (h : ((replayEvents widgets hits (livenessCheck widgets st)
      input.pointer.pointer_events).1.drag_id.bind (byId widgets)) = some w) :
    (w.sense.drag = true → w.sense.click = false →
      (interact prev widgets hits input st).1.dragged = some w) ∧
    (w.sense.drag = true → w.sense.click = true →
      ((interact prev widgets hits input st).1.dragged = some w ↔
        input.pointer.is_decidedly_dragging = true)) := by
  have hd : (interact prev widgets hits input st).1.dragged =
      (if (if w.sense.click && w.sense.drag then
          input.pointer.is_decidedly_dragging else w.sense.drag) then
        some w else none) := by
    show resolveDrag widgets input (replayEvents widgets hits
      (livenessCheck widgets st) input.pointer.pointer_events).1 = _
    unfold resolveDrag
    rw [h]
  constructor
  · intro hdr hcl
    rw [hd]
    simp [hdr, hcl]
  · intro hdr hcl
    rw [hd]
    simp only [hdr, hcl, Bool.and_self, if_true]
    cases hdec : input.pointer.is_decidedly_dragging <;> simp [hdec]

/-- Witness for C9: the drag-only widget `wB` is dragged the very frame of the
press; the click-and-drag widget `wA` is dragged when the decisive-drag
heuristic answers true. -/
theorem interact_drag_activation_witness :
    (interact emptySnapshot [wB] hitsB
      (inputWith [PointerEvent.pressed 0 0] false) emptyState).1.dragged
      = some wB ∧
    (interact emptySnapshot [wA] hitsA
      (inputWith [PointerEvent.pressed 0 0] true) emptyState).1.dragged
      = some wA :=
  ⟨(interact_drag_activation emptySnapshot [wB] hitsB
      (inputWith [PointerEvent.pressed 0 0] false) emptyState wB
      (by decide)).1 rfl rfl,
   ((interact_drag_activation emptySnapshot [wA] hitsA
      (inputWith [PointerEvent.pressed 0 0] true) emptyState wA
      (by decide)).2 rfl rfl).mpr rfl⟩

/-- Claim C10: implicit bound on hover — every snapshot returned by `interact`
has a `hovered` map with at most two entries, whatever the inputs. -/
theorem interact_hovered_at_most_two
    (prev : InteractionSnapshot) (widgets : List WidgetRect)
    (hits : WidgetHits) (input : InputState) (st : InteractionState) :
    (interact prev widgets hits input st).1.hovered.length ≤ 2 :=
  computeHovered_length_le hits
    ((interact prev widgets hits input st).1.clicked)
    ((interact prev widgets hits input st).1.dragged)
